import Mathlib

/-!
Shallow embedding of the question-answering pipeline of `src/server.js`:
prompt composition (`aiPrompt`, the `content: aiPrompt + question` send),
the translator-response extraction and query execution in `queryDatabase`,
the `/ask` HTTP handler, the chat-block renderer `convertJsonToSlackBlocks`
and the `app_mention` handler.  JavaScript dynamic values are modelled by
`JsValue`; host `Date` string parsing is a parameter (`parse`), instantiated
by `jsParseIsoZulu` for concrete UTC ISO-8601 inputs.
-/

/-- Dynamically-typed scalar values that can appear in a result row:
strings, integer numbers, `null` and `undefined`. -/
inductive JsValue where
  | str (s : String)
  | int (n : Int)
  | null
  | undef
deriving DecidableEq

/-- A row object: field names to values, in the object's own key order
(the order `Object.entries` iterates). -/
abbrev ResultRow := List (String × JsValue)

/-- An ordered sequence of rows, as returned by `pool.query(...).rows`. -/
abbrev ResultSet := List ResultRow

/-- JavaScript template-literal stringification `String(v)`: total, sends
`null` to `"null"` and `undefined` to `"undefined"`. -/
def jsTemplate : JsValue → String
  | .str s => s
  | .int n => toString n
  | .null => "null"
  | .undef => "undefined"

/-- The method call `value.toString()`: throws a `TypeError` on `null` and
`undefined`, otherwise agrees with template stringification. -/
def jsToStringMethod : JsValue → Except String String
  | .str s => .ok s
  | .int n => .ok (toString n)
  | .null => .error "TypeError: cannot read toString of null"
  | .undef => .error "TypeError: cannot read toString of undefined"

/-- `new Date(value).getTime()` in milliseconds, `none` for an invalid date.
String parsing is host behaviour, supplied as `parse`; `new Date(null)` is
the epoch (0 ms), `new Date(undefined)` is invalid, a number is epoch ms. -/
def newDateMs (parse : String → Option Int) : JsValue → Option Int
  | .str s => parse s
  | .int n => some n
  | .null => some 0
  | .undef => none

/-- JavaScript regex word character `\w`, i.e. `[A-Za-z0-9_]` (ASCII). -/
def isWordChar (c : Char) : Bool := c.isAlphanum || c = '_'

/-- The `replace(/\b\w/g, c => c.toUpperCase())` pass: uppercase every word
character that starts a word (preceded by nothing or a non-word char). -/
def upWordStarts : Option Char → List Char → List Char
  | _, [] => []
  | prev, c :: cs =>
    let boundary := match prev with
      | none => true
      | some p => !isWordChar p
    (if boundary && isWordChar c then c.toUpper else c) :: upWordStarts (some c) cs

/-- `key.replace(/_/g, ' ').replace(/\b\w/g, (char) => char.toUpperCase())`
from line 170 of `src/server.js`. -/
def formattedKey (key : String) : String :=
  String.mk (upWordStarts none (key.data.map (fun c => if c = '_' then ' ' else c)))

/-- `s.toLowerCase()` restricted to ASCII letters (the field names in play
are ASCII). -/
def jsToLower (s : String) : String := String.mk (s.data.map Char.toLower)

/-- Whether the first list is an initial segment of the second. -/
def startsWithChars : List Char → List Char → Bool
  | [], _ => true
  | _ :: _, [] => false
  | a :: as, b :: bs => a == b && startsWithChars as bs

/-- JavaScript `hay.includes(needle)`: the needle occurs contiguously. -/
def hasInfixChars (needle : List Char) : List Char → Bool
  | [] => startsWithChars needle []
  | b :: bs => startsWithChars needle (b :: bs) || hasInfixChars needle bs

/-- `key.toLowerCase().includes('date') || key.toLowerCase().includes('time')`
from line 173 of `src/server.js`. -/
def isDateKey (key : String) : Bool :=
  hasInfixChars "date".data (jsToLower key).data || hasInfixChars "time".data (jsToLower key).data

/-- The Slack date token built at line 177:
`<!date^${ts}^{date_short_pretty} at {time}|${value}>`. -/
def dateToken (ts : String) (value : JsValue) : String :=
  "<!date^" ++ ts ++ "^\x7bdate_short_pretty\x7d at \x7btime\x7d|" ++ jsTemplate value ++ ">"

/-- The per-field formatting of lines 169-188: date/time-named fields get a
date token whose timestamp is `Math.floor(getTime() / 1000)` (the `NaN` of an
invalid date prints as `"NaN"`; `new Date` does not throw on unparseable
strings, so the `catch` branch of the source is unreachable for these value
shapes), other fields get `value.toString()`, which throws on `null` and
`undefined`.  Returns the `*Label:*\n<value>` text of the field. -/
def renderFieldText (parse : String → Option Int) (key : String) (value : JsValue) :
    Except String String :=
  if isDateKey key then
    let ts := match newDateMs parse value with
      | some ms => toString (Int.fdiv ms 1000)
      | none => "NaN"
    .ok ("*" ++ formattedKey key ++ ":*\n" ++ dateToken ts value)
  else
    match jsToStringMethod value with
    | .ok s => .ok ("*" ++ formattedKey key ++ ":*\n" ++ s)
    | .error e => .error e

/-- One entry of a section's `fields` array: `{ type: 'mrkdwn', text }`. -/
structure SlackField where
  type : String
  text : String
deriving DecidableEq

/-- The `Object.entries(data).forEach` loop of lines 169-189: formats each
field in key order, pushing `{ type: 'mrkdwn', text }`; a thrown `TypeError`
aborts the whole traversal. -/
def renderRow (parse : String → Option Int) : ResultRow → Except String (List SlackField)
  | [] => .ok []
  | (key, value) :: rest =>
    match renderFieldText parse key value with
    | .error e => .error e
    | .ok t =>
      match renderRow parse rest with
      | .error e => .error e
      | .ok ts => .ok ({ type := "mrkdwn", text := t } :: ts)

/-- The per-row pass of `jsonData.forEach`: each row becomes one section's
field list; a throw in any row aborts the whole conversion. -/
def renderSections (parse : String → Option Int) : ResultSet → Except String (List (List SlackField))
  | [] => .ok []
  | row :: rest =>
    match renderRow parse row with
    | .error e => .error e
    | .ok fields =>
      match renderSections parse rest with
      | .error e => .error e
      | .ok secs => .ok (fields :: secs)

/-- A Block Kit block: `{ type: 'section', fields }` or `{ type: 'divider' }`. -/
inductive Block where
  | sectionBlock (fields : List SlackField)
  | dividerBlock
deriving DecidableEq

/-- Blocks pushed for every row after the first: `if (index > 0)` push a
divider, then push the section (lines 192-196). -/
def tailBlocks : List (List SlackField) → List Block
  | [] => []
  | fields :: rest => Block.dividerBlock :: Block.sectionBlock fields :: tailBlocks rest

/-- The full `blocks` array: the first row's section carries no leading
divider, every later row is preceded by one. -/
def blocksOfSections : List (List SlackField) → List Block
  | [] => []
  | fields :: rest => Block.sectionBlock fields :: tailBlocks rest

/-- The `{ blocks }` object returned by `convertJsonToSlackBlocks`. -/
structure SlackMessage where
  blocks : List Block
deriving DecidableEq

/-- The renderer's public input: either an array of rows or some non-array
value (`Array.isArray(jsonData)` false). -/
inductive JsInput where
  | arr (rows : ResultSet)
  | notArray
deriving DecidableEq

/-- `convertJsonToSlackBlocks` (lines 157-200): throws
`"JSON data should be a non-empty array."` on a non-array or empty-array
input, otherwise renders each row into a section with dividers between
consecutive sections. -/
def convertJsonToSlackBlocks (parse : String → Option Int) (jsonData : JsInput) :
    Except String SlackMessage :=
  match jsonData with
  | .notArray => .error "JSON data should be a non-empty array."
  | .arr rows =>
    if rows.length = 0 then .error "JSON data should be a non-empty array."
    else
      match renderSections parse rows with
      | .error e => .error e
      | .ok secs => .ok { blocks := blocksOfSections secs }

/-- Recogniser for section blocks. -/
def isSectionB : Block → Bool
  | .sectionBlock _ => true
  | .dividerBlock => false

/-- Recogniser for divider blocks. -/
def isDividerB : Block → Bool
  | .sectionBlock _ => false
  | .dividerBlock => true

/-- At every position `i ≥ start` of the list, the block is a divider
exactly when `i` is odd. -/
def divParityFrom : Nat → List Block → Bool
  | _, [] => true
  | i, b :: rest => (isDividerB b == decide (i % 2 = 1)) && divParityFrom (i + 1) rest

/-- Dividers sit exactly at the odd positions of the block list (so never
first, never last when the length is odd, always between two sections). -/
def dividersAtOddPositions (bs : List Block) : Bool := divParityFrom 0 bs

/-- Whether an `Except` is in its error (thrown) state. -/
def isErrExcept {α : Type} : Except String α → Bool
  | .error _ => true
  | .ok _ => false

/-- The block list of a renderer result (empty for a thrown error). -/
def resBlocks : Except String SlackMessage → List Block
  | .ok m => m.blocks
  | .error _ => []

/-- A scalar value of the spec's ResultRow data model (integer, string,
numeric or timestamp-like) — in particular not `null`/`undefined`. -/
def wellFormedValue : JsValue → Bool
  | .null => false
  | .undef => false
  | _ => true

/-- Every field value of every row is a proper scalar. -/
def wellFormedRows (rows : ResultSet) : Bool :=
  rows.all (fun row => row.all (fun kv => wellFormedValue kv.2))

/-- The static instruction template of lines 12-55 of `src/server.js`
(the backtick template literal bound to `aiPrompt`). -/
def aiPrompt : String := "
                    The \x27vm_simple_measures\x27 view contains the following fields:
                    - \x27id\x27: integer
                    - \x27measurement\x27: string (name of the measurement)
                    - \x27clinic_id\x27: integer
                    - \x27clinic_name\x27: string
                    - \x27public_patient_id\x27: integer
                    - \x27first_name\x27: string
                    - \x27last_name\x27: string
                    - \x27evaluation_date_time\x27: timestamp
                    - \x27answer_value\x27: numeric (the value of the measurement) is double precision do not use in rounding

                    The \x27vw_patients\x27 view constains the following fields:
                    - \x27public_patient_id\x27
                    - \x27patient_id\x27
                    - \x27patient_key\x27
                    - \x27evaluation_count\x27
                    - \x27last_name\x27
                    - \x27first_name\x27
                    - \x27clinic_name\x27
                    - \x27dob\x27
                    - \x27clinic_id\x27
                    - \x27zip\x27
                    - \x27sex\x27
                    - \x27date_started\x27

                    Instructions for generating a SQL query based on the question at the end:
                    - Do not use single quotes around field names, view names or table names
                    - Based on the question, query one or both views described. Join if necessary
                    - If asking about measurements, vm_simple_measures is appropriate.
                    - If asking about patient info without measurements, use vw_patients
                    - Output only the SQL query without headers, human commentary, or tick marks.
                    - Use \x27%\x27 wildcards with \x27ILIKE\x27 for partial matching in the \x27measurement\x27 field.
                    - Include \x27DISTINCT\x27 to ensure unique results.
                    - All non-aggregated fields should be in the \x27GROUP BY\x27 clause for aggregate queries.
                    - Do not use LAG and HAVING clauses in combination
                    - Always include an \x27ORDER BY\x27 clause.
                    - Convert dates and times to a short, friendly format.
                    - Include a \x27running_avg\x27 column if calculating an average over time.
                    - If the query involves trends, ensure the SQL reflects this.
                    - Provide \x27evaluation_date_time\x27 for each measurement.
                    - Remove script commentary and tick marks. Only return SQL
                    - IMPORTANT: Do not include explanations, comments, or annotations—return only the SQL query.
                    The question is: "

/-- The prompt sent to the translator: `content: aiPrompt + question`
(line 117), a plain string concatenation. -/
def composedPrompt (question : String) : String := aiPrompt ++ question

/-- One element of the translator response's `choices[i].message`: a
`content` field that may be absent (`undefined`). -/
structure GptMessage where
  content : Option String
deriving DecidableEq

/-- One element of `choices`: a `message` field that may be absent. -/
structure GptChoice where
  message : Option GptMessage
deriving DecidableEq

/-- The response envelope body `gptResponse.data`: a `choices` field that
may be absent. -/
structure GptData where
  choices : Option (List GptChoice)
deriving DecidableEq

/-- The property chain `gptResponse.data.choices[0].message.content` of
lines 124-125: indexing a missing `choices`, a first choice of an empty
list, or a missing `message` throws a `TypeError`; a present `message`
yields its (possibly absent) `content` without throwing. -/
def extractContent (d : GptData) : Except String (Option String) :=
  match d.choices with
  | none => .error "TypeError: cannot index choices of undefined"
  | some [] => .error "TypeError: cannot read message of undefined"
  | some (c :: _) =>
    match c.message with
    | none => .error "TypeError: cannot read content of undefined"
    | some m => .ok m.content

/-- The external world of one `queryDatabase` call: the translator call's
outcome as a function of the sent prompt (rejected promise = `.error`), and
`pool.query` as a function of the SQL text (which may be `undefined`). -/
structure Env where
  translator : String → Except String GptData
  db : Option String → Except String (List ResultRow)

/-- The pipeline's failure taxonomy: a rejected translator call, a
`TypeError` thrown while extracting the content, or a data-store error. -/
inductive PipeErr where
  | translation (msg : String)
  | jsTypeError (msg : String)
  | execution (msg : String)
deriving DecidableEq

/-- `queryDatabase` (lines 107-134): send `aiPrompt + question` to the
translator, extract `choices[0].message.content`, run it through
`pool.query`, and return `results.rows` unchanged; the `catch` logs and
rethrows, so every failure propagates.  The second component records
whether `pool.query` was invoked. -/
def queryDatabase (env : Env) (question : String) :
    Except PipeErr (List ResultRow) × Bool :=
  match env.translator (composedPrompt question) with
  | .error e => (.error (.translation e), false)
  | .ok d =>
    match extractContent d with
    | .error e => (.error (.jsTypeError e), false)
    | .ok sqlQuery =>
      match env.db sqlQuery with
      | .error e => (.error (.execution e), true)
      | .ok rows => (.ok rows, true)

/-- An HTTP response body: `res.json(...)` or `res.send(...)` plain text. -/
inductive HttpBody where
  | json (rows : List ResultRow)
  | text (s : String)
deriving DecidableEq

/-- An HTTP response: status code and body. -/
structure HttpResponse where
  status : Nat
  body : HttpBody
deriving DecidableEq

/-- The `POST /ask` handler (lines 96-105) applied to the pipeline's
outcome: success becomes `res.json(answer)` (status 200), any caught error
becomes `res.status(500).send('Server Error')`. -/
def askHandler (outcome : Except PipeErr (List ResultRow)) : HttpResponse :=
  match outcome with
  | .ok answer => { status := 200, body := .json answer }
  | .error _ => { status := 500, body := .text "Server Error" }

/-- A message posted to the channel: a block message with fallback text, or
a plain text message. -/
inductive SlackPost where
  | blockMessage (blocks : List Block) (text : String)
  | textMessage (text : String)
deriving DecidableEq

/-- The `app_mention` handler (lines 203-232) applied to the pipeline's
outcome: a pipeline failure is caught and only logged (nothing posted);
non-empty data is rendered and posted as blocks (a renderer throw is caught
and nothing is posted); empty data posts the plain `No data found` notice
without invoking the renderer.  The second component records whether
`convertJsonToSlackBlocks` was invoked. -/
def mentionHandlerPost (parse : String → Option Int)
    (outcome : Except PipeErr (List ResultRow)) : Option SlackPost × Bool :=
  match outcome with
  | .error _ => (none, false)
  | .ok data =>
    if data.length > 0 then
      match convertJsonToSlackBlocks parse (.arr data) with
      | .ok m =>
        (some (.blockMessage m.blocks
          "Data found, please use the slack web, desktop or mobile client."), true)
      | .error _ => (none, true)
    else
      (some (.textMessage "No data found"), false)

/-- A translator envelope whose first choice carries the given SQL text. -/
def gptOf (sql : String) : GptData := ⟨some [⟨some ⟨some sql⟩⟩]⟩

/-- A translator envelope whose first choice has a `message` but no
`content` field: the extraction chain of line 125 yields `undefined`
without throwing. -/
def gptNoContent : GptData := ⟨some [⟨some ⟨none⟩⟩]⟩

/-- An environment whose translator resolves with `gptNoContent` and whose
data store rejects the `undefined` query text it is then handed. -/
def envNoContent : Env :=
  ⟨fun _ => .ok gptNoContent, fun _ => .error "syntax error at or near undefined"⟩

/-- A healthy environment: the translator returns a SQL string and the
data store returns one row. -/
def envHealthy : Env :=
  ⟨fun _ => .ok (gptOf "SELECT 1"), fun _ => .ok [[("measurement", JsValue.str "hemoglobin")]]⟩

/-- A two-row result set used as a concrete renderer input. -/
def rowsPair : ResultSet := [[("a", JsValue.int 1)], [("b", JsValue.int 2)]]

/-- The numeric value of a decimal digit character, if it is one. -/
def digitVal (c : Char) : Option Nat :=
  if c.isDigit then some (c.toNat - 48) else none

/-- Days from 1970-01-01 to the given civil date (proleptic Gregorian),
the standard days-from-civil computation. -/
def daysFromCivil (y m d : Int) : Int :=
  let y2 := if m ≤ 2 then y - 1 else y
  let era := Int.fdiv y2 400
  let yoe := y2 - era * 400
  let mp := if m > 2 then m - 3 else m + 9
  let doy := Int.fdiv (153 * mp + 2) 5 + d - 1
  let doe := yoe * 365 + Int.fdiv yoe 4 - Int.fdiv yoe 100 + doy
  era * 146097 + doe - 719468

/-- Models the host JavaScript `Date` parser restricted to UTC ISO-8601
strings of the exact shape `YYYY-MM-DDTHH:MM:SSZ`, returning epoch
milliseconds; every other string is treated as an invalid date.  Used as a
concrete instance of the renderer's `parse` parameter. -/
def jsParseIsoZulu (s : String) : Option Int :=
  match s.data with
  | [y1, y2, y3, y4, '-', m1, m2, '-', d1, d2, 'T', h1, h2, ':', n1, n2, ':', s1, s2, 'Z'] =>
    match digitVal y1, digitVal y2, digitVal y3, digitVal y4, digitVal m1, digitVal m2,
      digitVal d1, digitVal d2, digitVal h1, digitVal h2, digitVal n1, digitVal n2,
      digitVal s1, digitVal s2 with
    | some a, some b, some c, some d, some e, some f, some g, some h,
      some i, some j, some k, some l, some p, some q =>
      let year : Int := Int.ofNat (a * 1000 + b * 100 + c * 10 + d)
      let mon : Int := Int.ofNat (e * 10 + f)
      let day : Int := Int.ofNat (g * 10 + h)
      let hour : Int := Int.ofNat (i * 10 + j)
      let minute : Int := Int.ofNat (k * 10 + l)
      let second : Int := Int.ofNat (p * 10 + q)
      some ((daysFromCivil year mon day * 86400 + hour * 3600 + minute * 60 + second) * 1000)
    | _, _, _, _, _, _, _, _, _, _, _, _, _, _ => none
  | _ => none

/-- The `blocks` list pushed for rows after the first has two entries per
row. -/
theorem tailBlocks_length (l : List (List SlackField)) :
    (tailBlocks l).length = 2 * l.length := by
  induction l with
  | nil => rfl
  | cons s rest ih => simp [tailBlocks, ih]; omega

/-- Each later row contributes exactly one divider. -/
theorem tailBlocks_countP_div (l : List (List SlackField)) :
    (tailBlocks l).countP isDividerB = l.length := by
  induction l with
  | nil => rfl
  | cons s rest ih => simp [tailBlocks, List.countP_cons, isDividerB, ih]

/-- Each later row contributes exactly one section. -/
theorem tailBlocks_countP_sec (l : List (List SlackField)) :
    (tailBlocks l).countP isSectionB = l.length := by
  induction l with
  | nil => rfl
  | cons s rest ih => simp [tailBlocks, List.countP_cons, isSectionB, ih]

/-- Starting at an odd index, the divider/section alternation of the later
rows keeps dividers at odd positions. -/
theorem divParityFrom_tailBlocks (l : List (List SlackField)) (i : Nat)
    (hi : i % 2 = 1) : divParityFrom i (tailBlocks l) = true := by
  induction l generalizing i with
  | nil => rfl
  | cons s rest ih =>
    have h1 : (i + 1) % 2 = 0 := by omega
    simp [tailBlocks, divParityFrom, isDividerB, hi, h1]
    exact ih (i + 2) (by omega)

/-- In a rendered non-empty block list the dividers sit exactly at the odd
positions. -/
theorem dividersAtOdd_blocksOfSections (s : List SlackField)
    (rest : List (List SlackField)) :
    dividersAtOddPositions (blocksOfSections (s :: rest)) = true := by
  simp [dividersAtOddPositions, blocksOfSections, divParityFrom, isDividerB]
  exact divParityFrom_tailBlocks rest 1 rfl

/-- A proper scalar value always formats without throwing. -/
theorem renderFieldText_ok (parse : String → Option Int) (k : String)
    (v : JsValue) (hv : wellFormedValue v = true) :
    ∃ s, renderFieldText parse k v = .ok s := by
  cases hc : renderFieldText parse k v with
  | ok s => exact ⟨s, rfl⟩
  | error e =>
    exfalso
    by_cases h : isDateKey k
    · simp [renderFieldText, h] at hc
    · cases v <;> simp [renderFieldText, h, jsToStringMethod, wellFormedValue] at hc hv

/-- A row of proper scalar values renders without throwing. -/
theorem renderRow_ok (parse : String → Option Int) (row : ResultRow)
    (h : ∀ kv ∈ row, wellFormedValue kv.2 = true) :
    ∃ fs, renderRow parse row = .ok fs := by
  induction row with
  | nil => exact ⟨[], rfl⟩
  | cons kv rest ih =>
    obtain ⟨k, v⟩ := kv
    obtain ⟨s, hs⟩ := renderFieldText_ok parse k v (h (k, v) (List.mem_cons_self _ _))
    obtain ⟨fs, hfs⟩ := ih (fun x hx => h x (List.mem_cons_of_mem _ hx))
    exact ⟨⟨"mrkdwn", s⟩ :: fs, by simp [renderRow, hs, hfs]⟩

/-- A result set of proper scalar values renders into one section per row. -/
theorem renderSections_ok (parse : String → Option Int) (rows : ResultSet)
    (h : ∀ r ∈ rows, ∀ kv ∈ r, wellFormedValue kv.2 = true) :
    ∃ secs, renderSections parse rows = .ok secs ∧ secs.length = rows.length := by
  induction rows with
  | nil => exact ⟨[], rfl, rfl⟩
  | cons r rest ih =>
    obtain ⟨fs, hfs⟩ := renderRow_ok parse r (h r (List.mem_cons_self _ _))
    obtain ⟨secs, hsecs, hlen⟩ := ih (fun x hx => h x (List.mem_cons_of_mem _ hx))
    exact ⟨fs :: secs, by simp [renderSections, hfs, hsecs], by simp [hlen]⟩

/-- A field that throws makes its whole row throw. -/
theorem renderRow_err (parse : String → Option Int) (row : ResultRow)
    (k : String) (v : JsValue) (hmem : (k, v) ∈ row)
    (herr : isErrExcept (renderFieldText parse k v) = true) :
    isErrExcept (renderRow parse row) = true := by
  induction row with
  | nil => cases hmem
  | cons kv rest ih =>
    obtain ⟨k0, v0⟩ := kv
    cases hf : renderFieldText parse k0 v0 with
    | error e => simp [renderRow, hf, isErrExcept]
    | ok t =>
      rcases List.mem_cons.mp hmem with heq | hmem'
      · injection heq with hk hv2
        subst hk
        subst hv2
        rw [hf] at herr
        simp [isErrExcept] at herr
      · have hrest := ih hmem'
        cases hr : renderRow parse rest with
        | error e => simp [renderRow, hf, hr, isErrExcept]
        | ok ts => rw [hr] at hrest; simp [isErrExcept] at hrest

/-- A row that throws makes the whole conversion of the row list throw. -/
theorem renderSections_err (parse : String → Option Int) (rows : ResultSet)
    (row : ResultRow) (hmem : row ∈ rows)
    (herr : isErrExcept (renderRow parse row) = true) :
    isErrExcept (renderSections parse rows) = true := by
  induction rows with
  | nil => cases hmem
  | cons r rest ih =>
    cases hr : renderRow parse r with
    | error e => simp [renderSections, hr, isErrExcept]
    | ok fs =>
      rcases List.mem_cons.mp hmem with heq | hmem'
      · rw [← heq] at hr
        rw [hr] at herr
        simp [isErrExcept] at herr
      · have hrest := ih hmem'
        cases hs : renderSections parse rest with
        | error e => simp [renderSections, hr, hs, isErrExcept]
        | ok secs => rw [hs] at hrest; simp [isErrExcept] at hrest

/-- Length and block counts of a non-empty rendered block list. -/
theorem blocksOfSections_stats (s : List SlackField) (rest : List (List SlackField)) :
    (blocksOfSections (s :: rest)).length = 2 * (rest.length + 1) - 1 ∧
    (blocksOfSections (s :: rest)).countP isSectionB = rest.length + 1 ∧
    (blocksOfSections (s :: rest)).countP isDividerB = rest.length := by
  refine ⟨?_, ?_, ?_⟩
  · simp [blocksOfSections, tailBlocks_length]
    omega
  · simp [blocksOfSections, List.countP_cons, isSectionB, tailBlocks_countP_sec]
  · simp [blocksOfSections, List.countP_cons, isDividerB, tailBlocks_countP_div]

/-- C3: for every non-empty result set of N rows made of the data model's
scalar values, `convertJsonToSlackBlocks` succeeds and its block list has
length 2N-1, contains exactly N section blocks and exactly N-1 divider
blocks, and has its dividers exactly at the odd positions — so no divider
leads, none trails, and each one sits between two sections. -/
theorem claim_C3 (parse : String → Option Int) (rows : ResultSet)
    (h1 : rows ≠ []) (h2 : wellFormedRows rows = true) :
    isErrExcept (convertJsonToSlackBlocks parse (.arr rows)) = false ∧
    (resBlocks (convertJsonToSlackBlocks parse (.arr rows))).length = 2 * rows.length - 1 ∧
    (resBlocks (convertJsonToSlackBlocks parse (.arr rows))).countP isSectionB = rows.length ∧
    (resBlocks (convertJsonToSlackBlocks parse (.arr rows))).countP isDividerB = rows.length - 1 ∧
    dividersAtOddPositions (resBlocks (convertJsonToSlackBlocks parse (.arr rows))) = true := by
  have hwf : ∀ r ∈ rows, ∀ kv ∈ r, wellFormedValue kv.2 = true := by
    intro r hr kv hkv
    obtain ⟨a, b⟩ := kv
    have h2' := h2
    simp [wellFormedRows, List.all_eq_true] at h2'
    exact h2' r hr a b hkv
  obtain ⟨secs, hsecs, hlen⟩ := renderSections_ok parse rows hwf
  have hne : rows.length ≠ 0 := by
    cases rows with
    | nil => exact absurd rfl h1
    | cons r rs => simp
  have hconv : convertJsonToSlackBlocks parse (.arr rows) = .ok ⟨blocksOfSections secs⟩ := by
    simp [convertJsonToSlackBlocks, hne, hsecs]
  rw [hconv]
  cases secs with
  | nil => exact absurd hlen.symm hne
  | cons s rest =>
    obtain ⟨hL, hS, hD⟩ := blocksOfSections_stats s rest
    have hlen' : rows.length = rest.length + 1 := by simpa using hlen.symm
    refine ⟨rfl, ?_, ?_, ?_, ?_⟩
    · simpa [resBlocks, hlen'] using hL
    · simpa [resBlocks, hlen'] using hS
    · simpa [resBlocks, hlen'] using hD
    · simpa [resBlocks] using dividersAtOdd_blocksOfSections s rest

/-- C3 witness: on the two-row set `rowsPair` the renderer succeeds with 3
blocks — 2 sections, 1 divider, dividers exactly at odd positions. -/
theorem claim_C3_witness :
    isErrExcept (convertJsonToSlackBlocks jsParseIsoZulu (.arr rowsPair)) = false ∧
    (resBlocks (convertJsonToSlackBlocks jsParseIsoZulu (.arr rowsPair))).length = 2 * rowsPair.length - 1 ∧
    (resBlocks (convertJsonToSlackBlocks jsParseIsoZulu (.arr rowsPair))).countP isSectionB = rowsPair.length ∧
    (resBlocks (convertJsonToSlackBlocks jsParseIsoZulu (.arr rowsPair))).countP isDividerB = rowsPair.length - 1 ∧
    dividersAtOddPositions (resBlocks (convertJsonToSlackBlocks jsParseIsoZulu (.arr rowsPair))) = true :=
  claim_C3 jsParseIsoZulu rowsPair (by decide) (by decide)

/-- C5: for every date/time-named field whose value parses as a timestamp
of `ms` epoch milliseconds, the rendered field text is a Slack date token
embedding `Math.floor(ms / 1000)` epoch seconds, with the raw value kept
as the token's fallback text. -/
theorem claim_C5 (parse : String → Option Int) (k : String) (v : JsValue)
    (ms : Int) (h1 : isDateKey k = true) (h2 : newDateMs parse v = some ms) :
    renderFieldText parse k v =
      .ok ("*" ++ formattedKey k ++ ":*\n" ++ dateToken (toString (Int.fdiv ms 1000)) v) := by
  simp [renderFieldText, h1, h2]

/-- C5 witness: `evaluation_date_time = "2024-01-15T10:30:00Z"` renders
with epoch seconds 1705314600 and the raw ISO string as fallback. -/
theorem claim_C5_witness :
    renderFieldText jsParseIsoZulu "evaluation_date_time" (JsValue.str "2024-01-15T10:30:00Z") =
      .ok ("*" ++ formattedKey "evaluation_date_time" ++ ":*\n" ++
        dateToken (toString (Int.fdiv 1705314600000 1000)) (JsValue.str "2024-01-15T10:30:00Z")) ∧
    toString (Int.fdiv (1705314600000 : Int) 1000) = "1705314600" ∧
    dateToken "1705314600" (JsValue.str "2024-01-15T10:30:00Z") =
      "<!date^1705314600^\x7bdate_short_pretty\x7d at \x7btime\x7d|2024-01-15T10:30:00Z>" :=
  ⟨claim_C5 jsParseIsoZulu "evaluation_date_time" (JsValue.str "2024-01-15T10:30:00Z")
    1705314600000 (by decide) (by decide), by decide, rfl⟩

/-- C6: for every field whose name does not contain date/time, the rendered
text is `*Label:*` and the value's plain string form, where the label
replaces underscores with spaces and uppercases each word start; in
particular `public_patient_id` labels as `Public Patient Id` and the value
`42` prints as `"42"`. -/
theorem claim_C6 (parse : String → Option Int) (k : String) (v : JsValue)
    (s : String) (h1 : isDateKey k = false) (h2 : jsToStringMethod v = .ok s) :
    renderFieldText parse k v = .ok ("*" ++ formattedKey k ++ ":*\n" ++ s) ∧
    formattedKey "public_patient_id" = "Public Patient Id" ∧
    jsToStringMethod (JsValue.int 42) = .ok "42" := by
  refine ⟨?_, by decide, rfl⟩
  simp [renderFieldText, h1, h2]

/-- C6 witness: the field `public_patient_id = 42` renders as label
`Public Patient Id` with value text `42`. -/
theorem claim_C6_witness :
    renderFieldText jsParseIsoZulu "public_patient_id" (JsValue.int 42) =
      .ok ("*" ++ formattedKey "public_patient_id" ++ ":*\n" ++ "42") ∧
    formattedKey "public_patient_id" = "Public Patient Id" ∧
    jsToStringMethod (JsValue.int 42) = .ok "42" :=
  claim_C6 jsParseIsoZulu "public_patient_id" (JsValue.int 42) "42" (by decide) rfl

/-- C7: the composed prompt is the pure concatenation `aiPrompt + question`:
it is literally `aiPrompt ++ q`, its character data starts with the static
instruction block's data and ends with exactly the question's data. -/
theorem claim_C7 (q : String) :
    composedPrompt q = aiPrompt ++ q ∧
    (∃ rest, (composedPrompt q).data = aiPrompt.data ++ rest) ∧
    (∃ front, (composedPrompt q).data = front ++ q.data) := by
  cases q with
  | mk l => exact ⟨rfl, ⟨l, rfl⟩, ⟨aiPrompt.data, rfl⟩⟩

/-- C8: a non-array input or a present-but-empty array makes the renderer
throw `"JSON data should be a non-empty array."` instead of returning a
blank message. -/
theorem claim_C8 (parse : String → Option Int) (input : JsInput)
    (h : input = JsInput.notArray ∨ input = JsInput.arr []) :
    convertJsonToSlackBlocks parse input = .error "JSON data should be a non-empty array." := by
  rcases h with h | h <;> subst h <;> rfl

/-- C8 witness: the renderer throws on a non-array input. -/
theorem claim_C8_witness :
    convertJsonToSlackBlocks jsParseIsoZulu JsInput.notArray =
      .error "JSON data should be a non-empty array." :=
  claim_C8 jsParseIsoZulu JsInput.notArray (Or.inl rfl)

/-- C1 counterexample: on an empty result set the chat-block renderer does
not return a "no data" sentinel — it throws the non-empty-array error. -/
theorem claim_C1_counterexample :
    convertJsonToSlackBlocks jsParseIsoZulu (.arr []) =
      .error "JSON data should be a non-empty array." ∧
    isErrExcept (convertJsonToSlackBlocks jsParseIsoZulu (.arr [])) = true :=
  ⟨rfl, rfl⟩

/-- C1 amended: on an empty result set the renderer throws its
non-empty-array error; the plain `No data found` notice is produced by the
mention handler, which short-circuits empty data without ever invoking the
renderer. -/
theorem claim_C1_amended (parse : String → Option Int) :
    convertJsonToSlackBlocks parse (.arr []) =
      .error "JSON data should be a non-empty array." ∧
    mentionHandlerPost parse (.ok []) = (some (.textMessage "No data found"), false) :=
  ⟨rfl, rfl⟩

/-- C2: evaluating the renderer at a date-named field whose value does not
parse as a timestamp: the field is NOT degraded to its plain string form
`"not a date"` — it is rendered as a date token with a `NaN` epoch (the
`new Date` call never throws on unparseable strings, so the source's
`catch` fallback is dead) — while the rest of the row still renders. -/
theorem claim_C2_code_bug_eval :
    jsParseIsoZulu "not a date" = none ∧
    convertJsonToSlackBlocks jsParseIsoZulu
      (.arr [[("event_date", .str "not a date"), ("public_patient_id", .int 42)]]) =
      .ok ⟨[Block.sectionBlock
        [⟨"mrkdwn", "*Event Date:*\n<!date^NaN^\x7bdate_short_pretty\x7d at \x7btime\x7d|not a date>"⟩,
         ⟨"mrkdwn", "*Public Patient Id:*\n42"⟩]]⟩ :=
  ⟨rfl, rfl⟩

/-- C4: evaluating the pipeline on a translator envelope whose first choice
has a `message` but no `content`: no content is extractable (the chain
yields `undefined` without throwing), yet `pool.query` IS invoked — with
the `undefined` query — so the claim's "Query Executor is never invoked"
fails for this malformed envelope. -/
theorem claim_C4_code_bug_eval :
    extractContent gptNoContent = .ok none ∧
    queryDatabase envNoContent "how many patients are there" =
      (.error (.execution "syntax error at or near undefined"), true) :=
  ⟨rfl, rfl⟩

/-- C9: the synchronous endpoint passes a successful pipeline's rows
through unchanged as a 200 JSON response — the rows are exactly what the
data store returned — and turns any pipeline failure into a 500 response
with the fixed generic text `Server Error` carrying no error detail. -/
theorem claim_C9 :
    (∀ (env : Env) (q : String) (d : GptData) (sq : Option String) (rows : List ResultRow),
      env.translator (composedPrompt q) = .ok d →
      extractContent d = .ok sq →
      env.db sq = .ok rows →
      (queryDatabase env q).1 = .ok rows ∧
      askHandler (queryDatabase env q).1 = ⟨200, .json rows⟩) ∧
    (∀ e : PipeErr, askHandler (.error e) = ⟨500, .text "Server Error"⟩) := by
  constructor
  · intro env q d sq rows h1 h2 h3
    simp [queryDatabase, h1, h2, h3, askHandler]
  · intro e
    rfl

/-- C9 witness: in a healthy environment the returned row set is served
unchanged with status 200, and a translation failure is served as the
generic 500 text. -/
theorem claim_C9_witness :
    ((queryDatabase envHealthy "average hemoglobin for clinic 3 last month").1 =
      .ok [[("measurement", JsValue.str "hemoglobin")]] ∧
     askHandler (queryDatabase envHealthy "average hemoglobin for clinic 3 last month").1 =
      ⟨200, .json [[("measurement", JsValue.str "hemoglobin")]]⟩) ∧
    askHandler (.error (.translation "network error")) = ⟨500, .text "Server Error"⟩ :=
  ⟨claim_C9.1 envHealthy "average hemoglobin for clinic 3 last month"
    (gptOf "SELECT 1") (some "SELECT 1") [[("measurement", JsValue.str "hemoglobin")]] rfl rfl rfl,
   claim_C9.2 (.translation "network error")⟩

/-- C10 counterexample: a row whose only `null`-valued field is date-named
does NOT make the renderer throw — `new Date(null)` is the epoch and the
template literal stringifies `null` — so the claim fails as stated. -/
theorem claim_C10_counterexample :
    convertJsonToSlackBlocks jsParseIsoZulu (.arr [[("evaluation_date", JsValue.null)]]) =
      .ok ⟨[Block.sectionBlock
        [⟨"mrkdwn", "*Evaluation Date:*\n<!date^0^\x7bdate_short_pretty\x7d at \x7btime\x7d|null>"⟩]]⟩ ∧
    isErrExcept (convertJsonToSlackBlocks jsParseIsoZulu
      (.arr [[("evaluation_date", JsValue.null)]])) = false :=
  ⟨rfl, rfl⟩

/-- C10 amended: whenever some row has a `null` or `undefined` value in a
field whose name does not contain date/time, the unguarded `.toString()`
throws and the renderer aborts the entire message. -/
theorem claim_C10_amended (parse : String → Option Int) (rows : ResultSet)
    (row : ResultRow) (k : String) (v : JsValue) (h1 : row ∈ rows)
    (h2 : (k, v) ∈ row) (h3 : isDateKey k = false)
    (h4 : v = JsValue.null ∨ v = JsValue.undef) :
    isErrExcept (convertJsonToSlackBlocks parse (.arr rows)) = true := by
  have hf : isErrExcept (renderFieldText parse k v) = true := by
    rcases h4 with h | h <;> subst h <;>
      simp [renderFieldText, h3, jsToStringMethod, isErrExcept]
  have hrow := renderRow_err parse row k v h2 hf
  have hsecs := renderSections_err parse rows row h1 hrow
  have hne : rows.length ≠ 0 := by
    cases rows with
    | nil => cases h1
    | cons r rs => simp
  cases hs : renderSections parse rows with
  | error e => simp [convertJsonToSlackBlocks, hne, hs, isErrExcept]
  | ok secs =>
    rw [hs] at hsecs
    simp [isErrExcept] at hsecs

/-- C10 amended witness: a `null` value in the non-date field
`public_patient_id` makes the whole conversion throw. -/
theorem claim_C10_witness :
    isErrExcept (convertJsonToSlackBlocks jsParseIsoZulu
      (.arr [[("public_patient_id", JsValue.null)]])) = true :=
  claim_C10_amended jsParseIsoZulu [[("public_patient_id", JsValue.null)]]
    [("public_patient_id", JsValue.null)] "public_patient_id" JsValue.null
    (List.Mem.head _) (List.Mem.head _) (by decide) (Or.inl rfl)
